import Mathlib

/-! # The service renderer of the gnostic Go generator

A shallow embedding of `plugins/gnostic-go-generator/renderer.go`:
`NewServiceRenderer`, `loadTemplates` and `Generate`, together with the
properties of the rendering pipeline that follow from that code.

Conventions of the embedding.

* A Go `error` is an `Option String`: `none` is `nil`, `some m` is an error
  whose `Error()` text is `m`.
* A Go function returning `([]byte, error)` returns a pair; both components
  are kept, since `Generate` assigns both.
* A Go run-time panic is the `error` side of `Except Panic`.
* The functions that `renderer.go` calls but does not define (the four
  programmatic generators, `stripMarkers`, `gofmt`, `templates`, the base64
  decoder and the template engine) are the fields of `Env`; every theorem is
  stated for an arbitrary `Env`.
* `log.Printf` is not modelled.
-/

namespace Gnostic

/-- A Go byte slice. -/
abbrev Bytes := List UInt8

/-- Run-time panics the renderer can raise. -/
inductive Panic where
  | nilPointerDereference
deriving DecidableEq, Repr

/-- The `plugins.File` record: a name and its content. -/
structure File where
  Name : String
  Data : Bytes
deriving DecidableEq, Repr

/-- The `plugins.Response` accumulator, restricted to the two fields the renderer touches. -/
structure Response where
  Files : List File
  Errors : List String
deriving DecidableEq, Repr

/-- The `ServiceRenderer` struct. `Templates` is the Go map from file name to
compiled template, kept as an association list read with `List.lookup`; a key
that is absent reads as `none`, the nil pointer a Go map lookup yields. -/
structure ServiceRenderer (T M : Type) where
  Templates : List (String × T)
  Model : M

/-- The collaborators of `renderer.go`, all defined outside that file.
Each is taken to return normally.

* `templates` is the embedded template set, listed in the order the
  `range` over the Go map happens to visit it;
* `DecodeString` is `base64.StdEncoding.DecodeString`;
* `Parse name text` is `template.New(name).Funcs(templateHelpers()).Parse(text)`;
* `Execute t model` is `t.Execute(f, struct{Model}{model})` on a non-nil
  template: the bytes written to the buffer `f` and the error returned;
* the four generators are the methods `GenerateClient`, `GenerateTypes`,
  `GenerateProvider`, `GenerateServer` of the renderer. -/
structure Env (T M : Type) where
  templates : List (String × String)
  DecodeString : String → Except String Bytes
  Parse : String → Bytes → Except String T
  Execute : T → M → Bytes × Option String
  GenerateClient : ServiceRenderer T M → Bytes × Option String
  GenerateTypes : ServiceRenderer T M → Bytes × Option String
  GenerateProvider : ServiceRenderer T M → Bytes × Option String
  GenerateServer : ServiceRenderer T M → Bytes × Option String
  stripMarkers : Bytes → Bytes
  gofmt : String → Bytes → Bytes × Option String

variable {T M : Type}

/-- The text `fmt.Sprintf("ERROR %v", err)` for an error with message `e`. -/
def sprintfError (e : String) : String := "ERROR " ++ e

/-- The loop of `filepath.Ext`, run over the path reversed: walking back from
the last character, stop with the empty extension at a path separator, and
return the suffix starting at the first dot met. `acc` holds the characters
already passed, in path order. -/
def extScan : List Char → List Char → String
  | [], _ => ""
  | c :: rest, acc =>
    if c = '/' then ""
    else if c = '.' then String.mk ('.' :: acc)
    else extScan rest (c :: acc)

/-- Go `filepath.Ext` (with `/` as the path separator): the suffix of `path`
beginning at the final dot of its last element, or the empty string. -/
def Ext (path : String) : String := extScan path.data.reverse []

/-- The assignment `renderer.Templates[filename] = t`. -/
def mapSet (m : List (String × T)) (filename : String) (t : T) : List (String × T) :=
  (filename, t) :: m

/-- The body of the `for ... range files` loop of `loadTemplates`, over the
entries still to visit. An entry that fails to decode or to parse returns its
error at once; when the entries are exhausted the function returns the outer
`err`, which nothing has assigned, hence `nil`. -/
def loadLoop (E : Env T M) : List (String × String) → ServiceRenderer T M →
    ServiceRenderer T M × Option String
  | [], renderer => (renderer, none)
  | (filename, encoding) :: rest, renderer =>
    match E.DecodeString encoding with
    | .error err => (renderer, some err)
    | .ok templateData =>
      match E.Parse filename templateData with
      | .error err => (renderer, some err)
      | .ok t => loadLoop E rest ⟨mapSet renderer.Templates filename t, renderer.Model⟩

/-- The method `loadTemplates`: reset the table, then load every entry. The
renderer is returned with the error because the method mutates it. -/
def loadTemplates (E : Env T M) (renderer : ServiceRenderer T M)
    (files : List (String × String)) : ServiceRenderer T M × Option String :=
  loadLoop E files ⟨[], renderer.Model⟩

/-- The constructor `NewServiceRenderer`: the pair (renderer pointer, error),
with `none` for the nil pointer. -/
def NewServiceRenderer (E : Env T M) (model : M) :
    Option (ServiceRenderer T M) × Option String :=
  let renderer : ServiceRenderer T M := ⟨[], model⟩
  let loaded := loadTemplates E renderer E.templates
  match loaded.2 with
  | some err => (none, some err)
  | none => (some loaded.1, none)

/-- Append `"ERROR <err>"` to the error list when `err` is not nil
(the statement `if err != nil { response.Errors = append(...) }`). -/
def appendError (response : Response) (err : Option String) : Response :=
  match err with
  | some e => ⟨response.Files, response.Errors ++ [sprintfError e]⟩
  | none => response

/-- The `switch filename` statement of `Generate` (lines 74 to 95). The result
is `file.Data`, `err` and the response as they stand after the switch.

The four reserved names call their generator. Any other name reads the
template table and calls `Execute` on what it finds; `Execute` reads the
fields of its receiver, so on the nil pointer of an absent key it raises a
nil-dereference panic (a `runtime.Error`, which the engine does not recover).
On a template that is present, an execution error is appended to the error
list inside the `default` branch, and `file.Data` is the buffer content. -/
def dispatch (E : Env T M) (renderer : ServiceRenderer T M) (response : Response)
    (filename : String) : Except Panic (Bytes × Option String × Response) :=
  if filename = "client.go" then
    let out := E.GenerateClient renderer
    .ok (out.1, out.2, response)
  else if filename = "types.go" then
    let out := E.GenerateTypes renderer
    .ok (out.1, out.2, response)
  else if filename = "provider.go" then
    let out := E.GenerateProvider renderer
    .ok (out.1, out.2, response)
  else if filename = "server.go" then
    let out := E.GenerateServer renderer
    .ok (out.1, out.2, response)
  else
    match renderer.Templates.lookup filename with
    | none => .error Panic.nilPointerDereference
    | some t =>
      let out := E.Execute t renderer.Model
      .ok (out.1, out.2, appendError response out.2)

/-- One iteration of the loop of `Generate`. The state is the response
and the named result `err`, which lives across iterations; the switch assigns
`err` in every branch, so the incoming value is overwritten before it is read.

After the switch: a non-nil `err` is appended to the error list (line 96);
a name with extension `.go` has its bytes stripped of markers and passed to
`gofmt`, whose two results become `file.Data` and `err`; any other name keeps
the bytes as they are; the file is appended to `response.Files` (line 107). -/
def generateFile (E : Env T M) (renderer : ServiceRenderer T M)
    (st : Response × Option String) (filename : String) :
    Except Panic (Response × Option String) :=
  match dispatch E renderer st.1 filename with
  | .error p => .error p
  | .ok (data, err, response) =>
    let response := appendError response err
    if Ext filename = ".go" then
      let out := E.gofmt filename (E.stripMarkers data)
      .ok (⟨response.Files ++ [⟨filename, out.1⟩], response.Errors⟩, out.2)
    else
      .ok (⟨response.Files ++ [⟨filename, data⟩], response.Errors⟩, err)

/-- The loop of `Generate` from a given state. -/
def generateLoop (E : Env T M) (renderer : ServiceRenderer T M) :
    List String → Response × Option String → Except Panic (Response × Option String)
  | [], st => .ok st
  | filename :: rest, st =>
    match generateFile E renderer st filename with
    | .error p => .error p
    | .ok st1 => generateLoop E renderer rest st1

/-- The method `Generate`: run the loop with `err` initially nil and return
the response as mutated together with the final `err`. -/
def Generate (E : Env T M) (renderer : ServiceRenderer T M) (response : Response)
    (files : List String) : Except Panic (Response × Option String) :=
  generateLoop E renderer files (response, none)

/-- The four names that `Generate` serves with a programmatic generator. -/
def reservedNames : List String := ["client.go", "types.go", "provider.go", "server.go"]

/-- A file name `Generate` has a strategy for: a reserved name or a key of the template table. -/
def isKnown (renderer : ServiceRenderer T M) (filename : String) : Bool :=
  reservedNames.contains filename || (renderer.Templates.lookup filename).isSome

/-! ## A concrete environment

Templates are numbered; template `0` renders three bytes, the middle one a
marker, and every other template fails. The client generator fails, the
server generator returns a lone opening brace, which `gofmt` rejects. -/

/-- Example collaborators. -/
def exEnv : Env Nat Unit :=
  ⟨[("README.md", "AA=="), ("docs.md", "AQ==")],
   fun s => if s = "AA==" then .ok [0] else if s = "AQ==" then .ok [1] else .error "illegal base64 data",
   fun _ d => match d with
     | [b] => .ok b.toNat
     | _ => .error "template: unexpected EOF",
   fun t _ => if t = 0 then ([1, 0, 2], none) else ([1], some "can not evaluate field X"),
   fun _ => ([], some "client failed"),
   fun _ => ([7], none),
   fun _ => ([8], none),
   fun _ => ([123], none),
   fun b => b.filter (fun x => x != 0),
   fun _ b => if b = [123] then ([], some "expected closing brace") else (b, none)⟩

/-- Example renderer: the table holds `README.md` and `docs.md`. -/
def exRenderer : ServiceRenderer Nat Unit := ⟨[("docs.md", 1), ("README.md", 0)], ()⟩

/-- The empty response. -/
def emptyResponse : Response := ⟨[], []⟩

/-- An entry of the embedded template set that fails to load: its encoding
does not base64-decode, or the decoded text does not parse as a template. -/
def entryFails (E : Env T M) (entry : String × String) : Bool :=
  match E.DecodeString entry.2 with
  | .error _ => true
  | .ok templateData =>
    match E.Parse entry.1 templateData with
    | .error _ => true
    | .ok _ => false

/-- The entries that `appendError` adds for `err`: one for an error, none for nil. -/
def errorEntries (err : Option String) : List String :=
  match err with
  | some e => [sprintfError e]
  | none => []

/-! ## Lemmas on the embedding -/

theorem appendError_files (response : Response) (err : Option String) :
    (appendError response err).Files = response.Files := by
  cases err <;> rfl

theorem appendError_errors (response : Response) (err : Option String) :
    (appendError response err).Errors =
      response.Errors ++ errorEntries err := by
  cases err <;> simp [appendError, errorEntries]

theorem ext_reserved (filename : String) (h : filename ∈ reservedNames) :
    Ext filename = ".go" := by
  simp only [reservedNames, List.mem_cons, List.mem_singleton, List.not_mem_nil, or_false] at h
  rcases h with h | h | h | h <;> subst h <;> decide

theorem reserved_iff (filename : String) :
    reservedNames.contains filename = true ↔
      (filename = "client.go" ∨ filename = "types.go" ∨ filename = "provider.go" ∨
        filename = "server.go") := by
  simp [reservedNames]

/-- On a known name the switch returns normally; the bytes and the error do not
depend on the response, the file list is untouched, and the error list grows by
entries that do not depend on the response either, none when the error is nil. -/
theorem dispatch_known (E : Env T M) (r : ServiceRenderer T M) (f : String)
    (h : isKnown r f = true) :
    ∃ d e es, (e = none → es = []) ∧ ∀ resp : Response,
      dispatch E r resp f = .ok (d, e, ⟨resp.Files, resp.Errors ++ es⟩) := by
  unfold dispatch
  by_cases h1 : f = "client.go"
  · exact ⟨(E.GenerateClient r).1, (E.GenerateClient r).2, [], fun _ => rfl,
      fun resp => by simp [h1]⟩
  by_cases h2 : f = "types.go"
  · exact ⟨(E.GenerateTypes r).1, (E.GenerateTypes r).2, [], fun _ => rfl,
      fun resp => by simp [h2]⟩
  by_cases h3 : f = "provider.go"
  · exact ⟨(E.GenerateProvider r).1, (E.GenerateProvider r).2, [], fun _ => rfl,
      fun resp => by simp [h3]⟩
  by_cases h4 : f = "server.go"
  · exact ⟨(E.GenerateServer r).1, (E.GenerateServer r).2, [], fun _ => rfl,
      fun resp => by simp [h4]⟩
  have hk : (r.Templates.lookup f).isSome = true := by
    have hr : ¬ (reservedNames.contains f = true) := by
      rw [reserved_iff]; simp [h1, h2, h3, h4]
    simp only [isKnown, Bool.or_eq_true] at h
    rcases h with h | h
    · exact absurd h hr
    · exact h
  obtain ⟨t, ht⟩ := Option.isSome_iff_exists.mp hk
  refine ⟨(E.Execute t r.Model).1, (E.Execute t r.Model).2,
    errorEntries (E.Execute t r.Model).2, fun he => by rw [he]; rfl, fun resp => ?_⟩
  simp only [h1, h2, h3, h4, if_false, ht]
  rw [← appendError_errors, ← appendError_files resp (E.Execute t r.Model).2]

/-- One iteration on a known name, in full: with `d`, `e` the bytes and the
error the switch leaves and `es` the entries the switch appends, the iteration
appends the file and the entries `es ++ errorEntries e`, and leaves in `err`
the result of `gofmt` for a `.go` name and `e` for any other. -/
theorem generateFile_known_full (E : Env T M) (r : ServiceRenderer T M) (f : String)
    (h : isKnown r f = true) :
    ∃ d e es, (e = none → es = []) ∧
      (∀ resp : Response, dispatch E r resp f = .ok (d, e, ⟨resp.Files, resp.Errors ++ es⟩)) ∧
      ∀ st : Response × Option String,
        generateFile E r st f =
          .ok (⟨st.1.Files ++
                [⟨f, if Ext f = ".go" then (E.gofmt f (E.stripMarkers d)).1 else d⟩],
               st.1.Errors ++ (es ++ errorEntries e)⟩,
               if Ext f = ".go" then (E.gofmt f (E.stripMarkers d)).2 else e) := by
  obtain ⟨d, e, es0, hn, hd⟩ := dispatch_known E r f h
  refine ⟨d, e, es0, hn, hd, fun st => ?_⟩
  by_cases hx : Ext f = ".go"
  · simp only [generateFile, hd, hx, if_true, appendError_files, appendError_errors,
      List.append_assoc]
  · simp only [generateFile, hd, hx, if_false, appendError_files, appendError_errors,
      List.append_assoc]

/-- One iteration on a known name returns normally, appends one file carrying
that name, and appends error entries that do not depend on the incoming state;
the outgoing `err` does not depend on the incoming state. -/
theorem generateFile_known (E : Env T M) (r : ServiceRenderer T M) (f : String)
    (h : isKnown r f = true) :
    ∃ data es err, ∀ st : Response × Option String,
      generateFile E r st f = .ok (⟨st.1.Files ++ [⟨f, data⟩], st.1.Errors ++ es⟩, err) := by
  obtain ⟨d, e, es0, _, _, hg⟩ := generateFile_known_full E r f h
  exact ⟨_, _, _, hg⟩

/-- The loop over known names returns normally; the files it appends carry the
requested names in order, and neither they nor the appended error entries
depend on the incoming state. -/
theorem generateLoop_known (E : Env T M) (r : ServiceRenderer T M) (files : List String)
    (h : ∀ f ∈ files, isKnown r f = true) :
    ∃ fs es, fs.map File.Name = files ∧ ∀ st : Response × Option String,
      ∃ err, generateLoop E r files st = .ok (⟨st.1.Files ++ fs, st.1.Errors ++ es⟩, err) := by
  induction files with
  | nil => exact ⟨[], [], rfl, fun st => ⟨st.2, by simp [generateLoop]⟩⟩
  | cons f rest ih =>
    obtain ⟨data, es1, err1, h1⟩ := generateFile_known E r f (h f (List.mem_cons_self f rest))
    obtain ⟨fs, es, hn, hr⟩ := ih (fun g hg => h g (List.mem_cons_of_mem f hg))
    refine ⟨⟨f, data⟩ :: fs, es1 ++ es, by simp [hn], fun st => ?_⟩
    obtain ⟨err, he⟩ := hr (⟨st.1.Files ++ [⟨f, data⟩], st.1.Errors ++ es1⟩, err1)
    exact ⟨err, by simp [generateLoop, h1, he]⟩

/-- The loop over a concatenation is the loop over the first list followed by
the loop over the second; a panic in the first list ends the run. -/
theorem generateLoop_append (E : Env T M) (r : ServiceRenderer T M) (xs ys : List String)
    (st : Response × Option String) :
    generateLoop E r (xs ++ ys) st =
      match generateLoop E r xs st with
      | .error p => .error p
      | .ok st1 => generateLoop E r ys st1 := by
  induction xs generalizing st with
  | nil => simp [generateLoop]
  | cons x rest ih =>
    simp only [List.cons_append, generateLoop]
    cases generateFile E r st x with
    | error p => rfl
    | ok st1 => exact ih st1

/-- A name that is neither reserved nor in the template table makes `Generate` panic. -/
theorem Generate_unknown_panics (E : Env T M) (r : ServiceRenderer T M) (resp : Response)
    (f : String) (h : isKnown r f = false) :
    Generate E r resp [f] = .error Panic.nilPointerDereference := by
  simp only [isKnown, Bool.or_eq_false_iff] at h
  obtain ⟨hr, hl⟩ := h
  have hr2 : ¬ (reservedNames.contains f = true) := by rw [hr]; exact Bool.false_ne_true
  rw [reserved_iff] at hr2
  simp only [not_or] at hr2
  obtain ⟨h1, h2, h3, h4⟩ := hr2
  have hn : r.Templates.lookup f = none := by
    cases hL : r.Templates.lookup f with
    | none => rfl
    | some t => simp [hL] at hl
  simp [Generate, generateLoop, generateFile, dispatch, h1, h2, h3, h4, hn]

/-- The error slot of `loadLoop` is set exactly when some entry fails to load,
and the model of the renderer is never touched. -/
theorem loadLoop_spec (E : Env T M) (files : List (String × String))
    (r : ServiceRenderer T M) :
    ((∃ err, (loadLoop E files r).2 = some err) ↔ ∃ entry ∈ files, entryFails E entry = true) ∧
      (loadLoop E files r).1.Model = r.Model := by
  induction files generalizing r with
  | nil => simp [loadLoop]
  | cons entry rest ih =>
    obtain ⟨filename, encoding⟩ := entry
    cases hd : E.DecodeString encoding with
    | error e => simp [loadLoop, hd, entryFails]
    | ok templateData =>
      cases hp : E.Parse filename templateData with
      | error e => simp [loadLoop, hd, hp, entryFails]
      | ok t =>
        have h := ih ⟨mapSet r.Templates filename t, r.Model⟩
        simp only [loadLoop, hd, hp]
        refine ⟨?_, h.2⟩
        rw [h.1]
        simp [entryFails, hd, hp]

/-! ## The constructor -/

/-- C7: `NewServiceRenderer` returns a nil renderer with a non-nil error if and
only if some entry of the embedded template set fails to base64-decode or to
parse, in whatever order the set is visited; when no entry fails it returns a
non-nil renderer that holds the given model, with a nil error. -/
theorem NewServiceRenderer_nil_iff_entry_fails (E : Env T M) (model : M) :
    ((∃ err, NewServiceRenderer E model = (none, some err)) ↔
        ∃ entry ∈ E.templates, entryFails E entry = true) ∧
      ((∀ entry ∈ E.templates, entryFails E entry = false) →
        ∃ renderer, NewServiceRenderer E model = (some renderer, none) ∧
          renderer.Model = model) := by
  have h := loadLoop_spec E E.templates (⟨[], model⟩ : ServiceRenderer T M)
  obtain ⟨hiff, hmodel⟩ := h
  constructor
  · rw [← hiff]
    simp only [NewServiceRenderer, loadTemplates]
    cases hl : (loadLoop E E.templates (⟨[], model⟩ : ServiceRenderer T M)).2 with
    | none => simp
    | some e => simp
  · intro hall
    have hnone : (loadLoop E E.templates (⟨[], model⟩ : ServiceRenderer T M)).2 = none := by
      cases hl : (loadLoop E E.templates (⟨[], model⟩ : ServiceRenderer T M)).2 with
      | none => rfl
      | some e =>
        obtain ⟨entry, hmem, hfail⟩ := hiff.mp ⟨e, hl⟩
        rw [hall entry hmem] at hfail
        exact absurd hfail Bool.false_ne_true
    refine ⟨(loadLoop E E.templates (⟨[], model⟩ : ServiceRenderer T M)).1, ?_, hmodel⟩
    simp only [NewServiceRenderer, loadTemplates, hnone]

/-! ## Generate on known names -/

/-- C5: for every response and every list of known file names, `Generate`
returns normally and the names of the records it appends to `response.Files`
are the requested names, in order and with multiplicity. -/
theorem Generate_appends_requested_names (E : Env T M) (r : ServiceRenderer T M)
    (resp : Response) (files : List String) (h : ∀ f ∈ files, isKnown r f = true) :
    ∃ resp1 err, Generate E r resp files = .ok (resp1, err) ∧
      resp.Files <+: resp1.Files ∧
      (resp1.Files.drop resp.Files.length).map File.Name = files := by
  obtain ⟨fs, es, hn, hr⟩ := generateLoop_known E r files h
  obtain ⟨err, he⟩ := hr (resp, none)
  exact ⟨_, err, he, ⟨fs, rfl⟩, by simp [hn]⟩

/-- C8: for every response and every list of known file names, `Generate`
returns normally and the lists `response.Files` and `response.Errors` as they
were before the call are initial segments of the lists after the call. -/
theorem Generate_only_appends (E : Env T M) (r : ServiceRenderer T M)
    (resp : Response) (files : List String) (h : ∀ f ∈ files, isKnown r f = true) :
    ∃ resp1 err, Generate E r resp files = .ok (resp1, err) ∧
      resp.Files <+: resp1.Files ∧ resp.Errors <+: resp1.Errors := by
  obtain ⟨fs, es, _, hr⟩ := generateLoop_known E r files h
  obtain ⟨err, he⟩ := hr (resp, none)
  exact ⟨_, err, he, ⟨fs, rfl⟩, ⟨es, rfl⟩⟩

/-- C10: for all lists `xs` and `ys` of known file names, `Generate` on `xs`,
then `Generate` on `ys` from the response so obtained, and `Generate` on
`xs ++ ys` all return normally, and the last two leave the same response;
what the run over `ys` records is what it records from the empty response,
appended to what `xs` left, whatever happened on `xs`. -/
theorem Generate_append (E : Env T M) (r : ServiceRenderer T M)
    (resp : Response) (xs ys : List String)
    (hx : ∀ f ∈ xs, isKnown r f = true) (hy : ∀ f ∈ ys, isKnown r f = true) :
    ∃ r1 e1 r2 e2 e3 fs es e4,
      Generate E r resp xs = .ok (r1, e1) ∧
      Generate E r r1 ys = .ok (r2, e2) ∧
      Generate E r resp (xs ++ ys) = .ok (r2, e3) ∧
      Generate E r emptyResponse ys = .ok (⟨fs, es⟩, e4) ∧
      r2 = ⟨r1.Files ++ fs, r1.Errors ++ es⟩ := by
  obtain ⟨fx, ex, _, hxs⟩ := generateLoop_known E r xs hx
  obtain ⟨fy, ey, _, hys⟩ := generateLoop_known E r ys hy
  obtain ⟨e1, h1⟩ := hxs (resp, none)
  obtain ⟨e2, h2⟩ := hys (⟨resp.Files ++ fx, resp.Errors ++ ex⟩, none)
  obtain ⟨e3, h3⟩ := hys (⟨resp.Files ++ fx, resp.Errors ++ ex⟩, e1)
  obtain ⟨e4, h4⟩ := hys (emptyResponse, none)
  refine ⟨_, e1, _, e2, e3, fy, ey, e4, h1, h2, ?_, ?_, rfl⟩
  · simp only [Generate, generateLoop_append]
    simp only [Generate] at h1
    rw [h1]
    exact h3
  · simp only [Generate]
    rw [h4]
    simp [emptyResponse]

/-! ## Files and errors of a single request -/

/-- C2, as the code has it: for every known file name, `Generate` on the
one-element list with the empty response returns normally and leaves exactly
one record in `response.Files`, carrying that name, whether or not an error
occurred. When the generator or the template execution returned an error,
`response.Errors` is not empty either (a record and an error, both); when it
returned none and `Generate` returns nil, `response.Errors` is empty. -/
theorem Generate_single_always_one_file (E : Env T M) (r : ServiceRenderer T M)
    (f : String) (h : isKnown r f = true) :
    ∃ d e rr data errors err,
      dispatch E r emptyResponse f = .ok (d, e, rr) ∧
      Generate E r emptyResponse [f] = .ok (⟨[⟨f, data⟩], errors⟩, err) ∧
      (e ≠ none → errors ≠ []) ∧
      (e = none → err = none → errors = []) := by
  obtain ⟨d, e, es, hn, hd, hg⟩ := generateFile_known_full E r f h
  refine ⟨d, e, _, if Ext f = ".go" then (E.gofmt f (E.stripMarkers d)).1 else d,
    es ++ errorEntries e, if Ext f = ".go" then (E.gofmt f (E.stripMarkers d)).2 else e,
    hd emptyResponse, ?_, ?_, ?_⟩
  · simp only [Generate, generateLoop, hg]
    rfl
  · intro he
    cases e with
    | none => exact absurd rfl he
    | some m => simp [errorEntries]
  · intro he _
    subst he
    simp [errorEntries, hn rfl]

/-- C3, as the code has it: when the server generator succeeds with bytes that
`gofmt` rejects, `Generate` on `["server.go"]` with the empty response returns
the error of `gofmt` and leaves exactly one record in `response.Files`, named
`server.go`, whose content is what `gofmt` returned beside its error. -/
theorem Generate_server_gofmt_error (E : Env T M) (r : ServiceRenderer T M)
    (b : Bytes) (e : String)
    (hgen : E.GenerateServer r = (b, none))
    (hfmt : (E.gofmt "server.go" (E.stripMarkers b)).2 = some e) :
    ∃ errors, Generate E r emptyResponse ["server.go"] =
      .ok (⟨[⟨"server.go", (E.gofmt "server.go" (E.stripMarkers b)).1⟩], errors⟩, some e) := by
  have hx : Ext "server.go" = ".go" := by decide
  refine ⟨[], ?_⟩
  simp [Generate, generateLoop, generateFile, dispatch, hgen, hfmt, hx, appendError,
    emptyResponse]

/-- C4, as the code has it: for a file name whose extension is not `.go` and
that is a key of the template table, if executing its template succeeds with
raw bytes `b`, then `Generate` appends a record whose content is `b` itself:
neither marker stripping nor formatting is applied. -/
theorem Generate_non_go_keeps_raw_bytes (E : Env T M) (r : ServiceRenderer T M)
    (resp : Response) (f : String) (t : T) (b : Bytes)
    (hext : Ext f ≠ ".go") (hkey : r.Templates.lookup f = some t)
    (hexec : E.Execute t r.Model = (b, none)) :
    Generate E r resp [f] = .ok (⟨resp.Files ++ [⟨f, b⟩], resp.Errors⟩, none) := by
  have hres : f ∉ reservedNames := fun hm => hext (ext_reserved f hm)
  simp only [reservedNames, List.mem_cons, List.mem_singleton, List.not_mem_nil, or_false,
    not_or] at hres
  obtain ⟨h1, h2, h3, h4⟩ := hres
  simp [Generate, generateLoop, generateFile, dispatch, h1, h2, h3, h4, hkey, hexec, hext,
    appendError]

/-- C6, as the code has it: `Generate` returns the error left by the last file
name alone. On the empty list it returns nil; on a list of known names ending
in `f` it returns the error of `gofmt` on the stripped bytes of `f` when the
extension of `f` is `.go`, and otherwise the error the generator or template
execution of `f` returned, whatever happened on the names before `f`. -/
theorem Generate_returns_error_of_last_file (E : Env T M) (r : ServiceRenderer T M)
    (resp : Response) (xs : List String) (f : String)
    (hxs : ∀ x ∈ xs, isKnown r x = true) (hf : isKnown r f = true) :
    Generate E r resp [] = .ok (resp, none) ∧
    ∃ d e rr resp1,
      dispatch E r emptyResponse f = .ok (d, e, rr) ∧
      Generate E r resp (xs ++ [f]) =
        .ok (resp1, if Ext f = ".go" then (E.gofmt f (E.stripMarkers d)).2 else e) := by
  refine ⟨rfl, ?_⟩
  obtain ⟨d, e, es, _, hd, hg⟩ := generateFile_known_full E r f hf
  obtain ⟨fx, ex, _, hl⟩ := generateLoop_known E r xs hxs
  obtain ⟨e1, h1⟩ := hl (resp, none)
  refine ⟨d, e, _,
    ⟨resp.Files ++ fx ++ [⟨f, if Ext f = ".go" then (E.gofmt f (E.stripMarkers d)).1 else d⟩],
     resp.Errors ++ ex ++ (es ++ errorEntries e)⟩, hd emptyResponse, ?_⟩
  simp only [Generate, generateLoop_append, h1, generateLoop, hg]

/-! ## The statements above at the concrete environment -/

/-- Witness of `Generate_appends_requested_names`: three known names, one of them twice. -/
theorem Generate_appends_requested_names_witness :
    (∀ f ∈ ["types.go", "README.md", "types.go", "docs.md"], isKnown exRenderer f = true) ∧
    ∃ resp1 err,
      Generate exEnv exRenderer emptyResponse ["types.go", "README.md", "types.go", "docs.md"] =
        .ok (resp1, err) ∧
      emptyResponse.Files <+: resp1.Files ∧
      (resp1.Files.drop emptyResponse.Files.length).map File.Name =
        ["types.go", "README.md", "types.go", "docs.md"] :=
  ⟨by decide, Generate_appends_requested_names exEnv exRenderer emptyResponse
    ["types.go", "README.md", "types.go", "docs.md"] (by decide)⟩

/-- Witness of `Generate_only_appends`: a response that already holds a file
and an error, and a request in which the client generator fails. -/
theorem Generate_only_appends_witness :
    (∀ f ∈ ["client.go", "README.md"], isKnown exRenderer f = true) ∧
    ∃ resp1 err,
      Generate exEnv exRenderer ⟨[⟨"old.txt", [9]⟩], ["ERROR old"]⟩ ["client.go", "README.md"] =
        .ok (resp1, err) ∧
      [(⟨"old.txt", [9]⟩ : File)] <+: resp1.Files ∧ ["ERROR old"] <+: resp1.Errors :=
  ⟨by decide, Generate_only_appends exEnv exRenderer ⟨[⟨"old.txt", [9]⟩], ["ERROR old"]⟩
    ["client.go", "README.md"] (by decide)⟩

/-- Witness of `Generate_append`: the first list fails on `docs.md`, the second succeeds. -/
theorem Generate_append_witness :
    (∀ f ∈ ["docs.md"], isKnown exRenderer f = true) ∧
    (∀ f ∈ ["types.go", "README.md"], isKnown exRenderer f = true) ∧
    ∃ r1 e1 r2 e2 e3 fs es e4,
      Generate exEnv exRenderer emptyResponse ["docs.md"] = .ok (r1, e1) ∧
      Generate exEnv exRenderer r1 ["types.go", "README.md"] = .ok (r2, e2) ∧
      Generate exEnv exRenderer emptyResponse (["docs.md"] ++ ["types.go", "README.md"]) =
        .ok (r2, e3) ∧
      Generate exEnv exRenderer emptyResponse ["types.go", "README.md"] = .ok (⟨fs, es⟩, e4) ∧
      r2 = ⟨r1.Files ++ fs, r1.Errors ++ es⟩ :=
  ⟨by decide, by decide, Generate_append exEnv exRenderer emptyResponse ["docs.md"]
    ["types.go", "README.md"] (by decide) (by decide)⟩

/-- C2 fails as stated: the client generator of the example fails, and
`Generate` on `["client.go"]` leaves one record in `response.Files` and one
entry in `response.Errors`, both. -/
theorem Generate_single_file_and_error_counterexample :
    isKnown exRenderer "client.go" = true ∧
    ∃ resp err,
      Generate exEnv exRenderer emptyResponse ["client.go"] = .ok (resp, err) ∧
      resp.Files.length = 1 ∧ resp.Errors.length = 1 ∧
      ¬ ((resp.Files.length = 1 ∧ resp.Errors.length = 0) ∨
         (resp.Errors.length = 1 ∧ resp.Files.length = 0)) :=
  ⟨by decide, ⟨[⟨"client.go", []⟩], ["ERROR client failed"]⟩, none, rfl, by decide, by decide,
    by decide⟩

/-- Witness of `Generate_single_always_one_file` at `client.go`. -/
theorem Generate_single_always_one_file_witness :
    isKnown exRenderer "client.go" = true ∧
    ∃ d e rr data errors err,
      dispatch exEnv exRenderer emptyResponse "client.go" = .ok (d, e, rr) ∧
      Generate exEnv exRenderer emptyResponse ["client.go"] =
        .ok (⟨[⟨"client.go", data⟩], errors⟩, err) ∧
      (e ≠ none → errors ≠ []) ∧
      (e = none → err = none → errors = []) :=
  ⟨by decide, Generate_single_always_one_file exEnv exRenderer "client.go" (by decide)⟩

/-- C3 fails as stated: the server generator of the example succeeds with a
lone opening brace, which `gofmt` rejects; `Generate` on `["server.go"]` leaves
a record named `server.go` in `response.Files` and no entry in
`response.Errors`, and returns the error of `gofmt`. -/
theorem Generate_server_gofmt_error_counterexample :
    exEnv.GenerateServer exRenderer = ([123], none) ∧
    (exEnv.gofmt "server.go" (exEnv.stripMarkers [123])).2 = some "expected closing brace" ∧
    ∃ resp err,
      Generate exEnv exRenderer emptyResponse ["server.go"] = .ok (resp, err) ∧
      resp.Files = [⟨"server.go", []⟩] ∧ resp.Errors = [] ∧
      ¬ ((resp.Files.filter (fun file => file.Name == "server.go")).length = 0 ∧
         resp.Errors.length = 1) :=
  ⟨rfl, by decide, ⟨[⟨"server.go", []⟩], []⟩, some "expected closing brace", rfl, rfl, rfl,
    by decide⟩

/-- Witness of `Generate_server_gofmt_error` at the example. -/
theorem Generate_server_gofmt_error_witness :
    exEnv.GenerateServer exRenderer = ([123], none) ∧
    (exEnv.gofmt "server.go" (exEnv.stripMarkers [123])).2 = some "expected closing brace" ∧
    ∃ errors, Generate exEnv exRenderer emptyResponse ["server.go"] =
      .ok (⟨[⟨"server.go", (exEnv.gofmt "server.go" (exEnv.stripMarkers [123])).1⟩], errors⟩,
        some "expected closing brace") :=
  ⟨rfl, by decide, Generate_server_gofmt_error exEnv exRenderer [123] "expected closing brace"
    rfl (by decide)⟩

/-- C4 fails as stated: `README.md` is a key of the table, its extension is
`.md`, its template renders the bytes 1, 0, 2 where 0 is a marker; the record
`Generate` appends holds 1, 0, 2, which is not `stripMarkers` of them. -/
theorem Generate_non_go_not_stripped_counterexample :
    Ext "README.md" ≠ ".go" ∧
    exRenderer.Templates.lookup "README.md" = some 0 ∧
    exEnv.Execute 0 exRenderer.Model = ([1, 0, 2], none) ∧
    Generate exEnv exRenderer emptyResponse ["README.md"] =
      .ok (⟨[⟨"README.md", [1, 0, 2]⟩], []⟩, none) ∧
    exEnv.stripMarkers [1, 0, 2] = [1, 2] ∧
    ([1, 0, 2] : Bytes) ≠ exEnv.stripMarkers [1, 0, 2] :=
  ⟨by decide, by decide, rfl, rfl, by decide, by decide⟩

/-- Witness of `Generate_non_go_keeps_raw_bytes` at `README.md`. -/
theorem Generate_non_go_keeps_raw_bytes_witness :
    Ext "README.md" ≠ ".go" ∧
    exRenderer.Templates.lookup "README.md" = some 0 ∧
    exEnv.Execute 0 exRenderer.Model = ([1, 0, 2], none) ∧
    Generate exEnv exRenderer emptyResponse ["README.md"] =
      .ok (⟨emptyResponse.Files ++ [⟨"README.md", [1, 0, 2]⟩], emptyResponse.Errors⟩, none) :=
  ⟨by decide, by decide, rfl, Generate_non_go_keeps_raw_bytes exEnv exRenderer emptyResponse
    "README.md" 0 [1, 0, 2] (by decide) (by decide) rfl⟩

/-- C6 fails as stated: on `["client.go", "types.go"]` the client generator
fails, an entry for it is recorded, and `Generate` returns nil because the last
name, `types.go`, is generated and formatted without error. -/
theorem Generate_returns_nil_after_error_counterexample :
    (∀ f ∈ ["client.go", "types.go"], isKnown exRenderer f = true) ∧
    (exEnv.GenerateClient exRenderer).2 = some "client failed" ∧
    Generate exEnv exRenderer emptyResponse ["client.go", "types.go"] =
      .ok (⟨[⟨"client.go", []⟩, ⟨"types.go", [7]⟩], ["ERROR client failed"]⟩, none) :=
  ⟨by decide, rfl, rfl⟩

/-- Witness of `Generate_returns_error_of_last_file`: the failing `docs.md`, then `server.go`. -/
theorem Generate_returns_error_of_last_file_witness :
    (∀ x ∈ ["docs.md"], isKnown exRenderer x = true) ∧
    isKnown exRenderer "server.go" = true ∧
    Generate exEnv exRenderer emptyResponse [] = .ok (emptyResponse, none) ∧
    ∃ d e rr resp1,
      dispatch exEnv exRenderer emptyResponse "server.go" = .ok (d, e, rr) ∧
      Generate exEnv exRenderer emptyResponse (["docs.md"] ++ ["server.go"]) =
        .ok (resp1, if Ext "server.go" = ".go" then
          (exEnv.gofmt "server.go" (exEnv.stripMarkers d)).2 else e) :=
  ⟨by decide, by decide, Generate_returns_error_of_last_file exEnv exRenderer emptyResponse
    ["docs.md"] "server.go" (by decide) (by decide)⟩

/-! ## Where the code departs from its contract -/

/-- C1, the code at a failing input: `unknown.txt` is neither reserved nor a
key of the table, and `Generate` on it panics with a nil dereference instead of
recording an error. -/
theorem Generate_unknown_name_panics :
    "unknown.txt" ∉ reservedNames ∧
    exRenderer.Templates.lookup "unknown.txt" = none ∧
    Generate exEnv exRenderer emptyResponse ["unknown.txt"] =
      .error Panic.nilPointerDereference :=
  ⟨by decide, by decide, rfl⟩

/-- C9, the code at a failing input: `docs.md` is a key of the table and not
reserved, its template execution fails once, and `Generate` on `["docs.md"]`
appends two entries to `response.Errors` for that one failure. -/
theorem Generate_template_error_recorded_twice :
    "docs.md" ∉ reservedNames ∧
    exRenderer.Templates.lookup "docs.md" = some 1 ∧
    exEnv.Execute 1 exRenderer.Model = ([1], some "can not evaluate field X") ∧
    Generate exEnv exRenderer emptyResponse ["docs.md"] =
      .ok (⟨[⟨"docs.md", [1]⟩],
            ["ERROR can not evaluate field X", "ERROR can not evaluate field X"]⟩,
           some "can not evaluate field X") :=
  ⟨by decide, by decide, rfl, rfl⟩

end Gnostic
